import Mathlib

/-!
Shallow embedding of the harmful-meme content-moderation pipeline
(`feature_factory.py`, `feature_store.py`, `serving_engine.py`).

Python dictionaries with string keys are modelled as association lists
(`List (String × _)`) or, for the online store, as a function
`String → Option TagVector`.  Random draws (`random.random()`,
`random.uniform(-0.1, 0.1)`) are passed in explicitly as rational inputs.
Network calls (the VLM and the text model) are passed as oracles of type
`String → Except Unit _`, where `Except.error` models the call raising.
-/

namespace ContentModeration

/-- One post identifier as it appears in the input JSON: either a number or
a string.  `feature_store.py` coerces it with Python `str(...)` on both the
write and the read path. -/
inductive PId where
  | int (n : Int)
  | str (s : String)
deriving DecidableEq, Repr

/-- Python `str(post_id)`: the identity on strings, decimal rendering on
integers. -/
def pyStr : PId → String
  | .int n => toString n
  | .str s => s

/-- The structured VLM analysis (`_call_vlm` result / the ERROR fallback
dict built in `process_batch`). -/
structure VlmOutput where
  visual_summary : String
  ocr_text : String
  is_sarcastic : Bool
  is_sarcastic_reason : String
  is_harmful : Bool
  is_harmful_reason : String
  is_offensive : Bool
  is_offensive_reason : String
  is_violent : Bool
  is_violent_reason : String
  is_sexual : Bool
  is_sexual_reason : String
  is_explicit : Bool
  is_explicit_reason : String
  is_terrorist : Bool
  is_terrorist_reason : String
  is_extremist : Bool
  is_extremist_reason : String
  is_child_exploitation : Bool
  is_child_exploitation_reason : String
  is_hate_speech : Bool
  is_hate_speech_reason : String
  is_spam : Bool
  is_spam_reason : String
  is_racist_or_racial_slur : Bool
  is_racist_or_racial_slur_reason : String
deriving DecidableEq, Repr

/-- The ERROR-sentinel analysis built in `process_batch` when
`generate_caption` raises (lines 254-281 of `feature_factory.py`): both
text fields `"ERROR"`, every flag `False`, every reason `"ERROR"`. -/
def errorVlmOutput : VlmOutput where
  visual_summary := "ERROR"
  ocr_text := "ERROR"
  is_sarcastic := false
  is_sarcastic_reason := "ERROR"
  is_harmful := false
  is_harmful_reason := "ERROR"
  is_offensive := false
  is_offensive_reason := "ERROR"
  is_violent := false
  is_violent_reason := "ERROR"
  is_sexual := false
  is_sexual_reason := "ERROR"
  is_explicit := false
  is_explicit_reason := "ERROR"
  is_terrorist := false
  is_terrorist_reason := "ERROR"
  is_extremist := false
  is_extremist_reason := "ERROR"
  is_child_exploitation := false
  is_child_exploitation_reason := "ERROR"
  is_hate_speech := false
  is_hate_speech_reason := "ERROR"
  is_spam := false
  is_spam_reason := "ERROR"
  is_racist_or_racial_slur := false
  is_racist_or_racial_slur_reason := "ERROR"

/-- A Category Score Vector: category name → score, as the Python dict
returned by `classify_to_scores`. -/
abbrev Scores := List (String × ℚ)

/-- A Tag Vector: `Is_`-prefixed category name → 0/1 tag, as the Python
dict returned by `apply_policy`. -/
abbrev TagVector := List (String × Int)

/-- The outcomes of the random draws consumed by one `classify_to_scores`
call, in evaluation order: `r0` for `random.random() * 0.5`, `u` for
`random.uniform(-0.1, 0.1)`, then one `random.random()` each for the
Political, Spam and Copyright scores. -/
structure Draws where
  r0 : ℚ
  u : ℚ
  rPol : ℚ
  rSpam : ℚ
  rCopy : ℚ
deriving DecidableEq, Repr

/-- The draw ranges guaranteed by the Python `random` module:
`random.random() ∈ [0,1)` and `random.uniform(-0.1, 0.1) ∈ [-0.1, 0.1]`. -/
def Draws.Valid (d : Draws) : Prop :=
  0 ≤ d.r0 ∧ d.r0 < 1 ∧ -(1/10) ≤ d.u ∧ d.u ≤ 1/10 ∧
  0 ≤ d.rPol ∧ d.rPol < 1 ∧ 0 ≤ d.rSpam ∧ d.rSpam < 1 ∧
  0 ≤ d.rCopy ∧ d.rCopy < 1

instance (d : Draws) : Decidable d.Valid := by
  unfold Draws.Valid
  infer_instance

/-- The designated high-risk trigger tokens of `classify_to_scores`. -/
def triggers : List String := ["hate", "kill", "attack", "stupid"]

/-- `FeatureFactory.classify_to_scores`: a randomized base score, raised
additively by 0.4 when any trigger token is among the keywords, and the
`Harmful_Content` entry clamped above at 1.0 with `min`. -/
def classify_to_scores (keywords : List String) (d : Draws) : Scores :=
  let base_score := d.r0 * (1/2)
  let base_score :=
    if triggers.any (fun t => keywords.contains t) then base_score + 2/5
    else base_score
  [("Harmful_Content", min 1 (base_score + d.u)),
   ("Political_Content", d.rPol),
   ("Spam", d.rSpam * (3/10)),
   ("Copyright_Infringement", d.rCopy * (1/10))]

/-- The entry of a `classify_to_scores` result at one category key. -/
def scoreOf (cat : String) (keywords : List String) (d : Draws) : ℚ :=
  ((classify_to_scores keywords d).lookup cat).getD 0

/-- `FeatureFactory.apply_policy`: per category, tag 1 iff score is at
least the configured threshold, with `dict.get` default 0.5, and the key
prefixed with `Is_`. -/
def apply_policy (policy_thresholds : List (String × ℚ)) (scores : Scores) :
    TagVector :=
  scores.map (fun cs =>
    let threshold := ((policy_thresholds.lookup cs.1).getD (1/2))
    ("Is_" ++ cs.1, if cs.2 ≥ threshold then (1 : Int) else 0))

/-- Python `str.split()` with no argument: split on spaces and drop the
empty pieces. -/
def pySplit (s : String) : List String :=
  (s.splitOn " ").filter (fun w => w ≠ "")

/-- `FeatureFactory.summarize_text`: format the prompt from the post text
and the VLM output, call the text model, and split its reply on commas; on
any exception fall back to deterministic tokenization of the combined
context (lowercased words longer than 3 characters, deduplicated). -/
def summarize_text (textOracle : String → Except Unit String)
    (post_text : String) (vlm_output : VlmOutput) : List String :=
  let summary := vlm_output.visual_summary
  let ocr_text := vlm_output.ocr_text
  match textOracle (post_text ++ " " ++ summary ++ " " ++ ocr_text) with
  | .ok response_text => (response_text.splitOn ",").map String.trim
  | .error _ =>
    let combined_context :=
      "Post Text: " ++ post_text ++ ". Image shows: " ++ summary ++
      ". Image text says: " ++ ocr_text
    (((pySplit combined_context).filter (fun w => w.length > 3)).map
      String.toLower).dedup

/-- One raw input post as `process_batch` sees it: the `id`, `text` and
resolved image path columns of the ingested dataframe. -/
structure Post where
  id : PId
  text : String
  img_abs_path : String
deriving DecidableEq, Repr

/-- One Feature Row, as the dict built per post in `process_batch`. -/
structure FeatureRow where
  post_id : PId
  post_text : String
  keywords : List String
  vlm : VlmOutput
  scores : Scores
  tags : TagVector
deriving DecidableEq, Repr

/-- The per-post body of `FeatureFactory.process_batch`: VLM analysis with
the ERROR fallback when the call raises, keyword summarization, scoring
and policy application. -/
def process_row (policy_thresholds : List (String × ℚ))
    (vlm : String → Except Unit VlmOutput)
    (textOracle : String → Except Unit String)
    (d : Draws) (post : Post) : FeatureRow :=
  let vlm_output :=
    match vlm post.img_abs_path with
    | .ok v => v
    | .error _ => errorVlmOutput
  let keywords := summarize_text textOracle post.text vlm_output
  let scores := classify_to_scores keywords d
  let binary_tags := apply_policy policy_thresholds scores
  { post_id := post.id
    post_text := post.text
    keywords := keywords
    vlm := vlm_output
    scores := scores
    tags := binary_tags }

/-- `FeatureFactory.process_batch`: one Feature Row per input post, in
order; the draws are indexed by the position of the post in the batch. -/
def process_batch (policy_thresholds : List (String × ℚ))
    (vlm : String → Except Unit VlmOutput)
    (textOracle : String → Except Unit String)
    (draws : Nat → Draws) : List Post → List FeatureRow
  | [] => []
  | post :: rest =>
    process_row policy_thresholds vlm textOracle (draws 0) post ::
      process_batch policy_thresholds vlm textOracle
        (fun i => draws (i + 1)) rest

/-- The online store of `FeatureStore`: the Python dict mapping
`str(post_id)` to a Tag Vector, modelled as a partial function. -/
abbrev OnlineStore := String → Option TagVector

/-- The empty online store (`self.online_store = \x7b\x7d`). -/
def emptyStore : OnlineStore := fun _ => none

/-- Updating one key of the online store dict. -/
def storeInsert (s : OnlineStore) (k : String) (v : TagVector) : OnlineStore :=
  fun k2 => if k2 = k then some v else s k2

/-- `FeatureStore.write_online`: for each row in order, set the entry at
`str(post_id)` to the `Is_`-prefixed columns (its Tag Vector);
later rows overwrite earlier ones at the same key. -/
def write_online (s : OnlineStore) (rows : List FeatureRow) : OnlineStore :=
  rows.foldl (fun acc row => storeInsert acc (pyStr row.post_id) row.tags) s

/-- `FeatureStore.get_online_features`: `dict.get(str(post_id), None)` —
`none` is the NOT_FOUND sentinel (Python `None`). -/
def get_online_features (s : OnlineStore) (post_id : PId) :
    Option TagVector :=
  s (pyStr post_id)

/-- The classifier slot of the serving engine.  `fitted` carries the
opaque `predict_proba`-derived probability function of a successfully
fitted `LogisticRegression`; `unfitted` is a `LogisticRegression()` whose
`fit` raised, on which `predict_proba` raises `NotFittedError`. -/
inductive ModelState where
  | unfitted
  | fitted (predict_proba : TagVector → ℚ)

/-- `ServingEngine` state: the shared feature store and the `self.model`
slot (`none` is Python `None`). -/
structure Engine where
  store : OnlineStore
  model : Option ModelState

/-- The weak-label generator in `train_model`: for one offline row and one
`random.random()` draw `r`, label 0 (block) with probability 0.9 when
`Is_Harmful_Content == 1`, else label 1 (display) with probability 0.9. -/
def weakLabel (row : FeatureRow) (r : ℚ) : Int :=
  if (row.tags.lookup "Is_Harmful_Content").getD 0 = 1 then
    if r > 1/10 then 0 else 1
  else
    if r > 1/10 then 1 else 0

/-- `ServingEngine.train_model`.  `offline` is the offline CSV: `none`
when the file does not exist (early return, engine unchanged).  `fit`
abstracts `LogisticRegression().fit`: `none` models `fit` raising (e.g.
on a degenerate single-class label vector).  Faithful to the source,
`self.model` is assigned the fresh estimator BEFORE `fit` is attempted,
so a failed fit leaves `model = some .unfitted`, not `none`. -/
def train_model (fit : List TagVector → List Int → Option (TagVector → ℚ))
    (labelDraws : Nat → ℚ) (offline : Option (List FeatureRow))
    (e : Engine) : Engine :=
  match offline with
  | none => e
  | some rows =>
    let X := rows.map (fun r => r.tags)
    let y := rows.mapIdx (fun i r => weakLabel r (labelDraws i))
    match fit X y with
    | some p => { e with model := some (.fitted p) }
    | none => { e with model := some .unfitted }

/-- Rounding to 4 decimal places, Python `round(prob, 4)`. -/
def round4 (q : ℚ) : ℚ := (round (q * 10000) : ℤ) / 10000

/-- The threshold cascade of `serve_prediction`: `prob < 0.2 → BLOCK`,
else `prob < 0.5 → DEMOTE`, else `DISPLAY`. -/
def decideAction (prob : ℚ) : String :=
  if prob < 1/5 then "BLOCK"
  else if prob < 1/2 then "DEMOTE"
  else "DISPLAY"

/-- The serving response dict: `score = none` models the score key being
absent (the ERROR_NOT_FOUND response carries no score). -/
structure Decision where
  post_id : PId
  score : Option ℚ
  action : String
deriving DecidableEq, Repr

/-- `ServingEngine.serve_prediction`.  `Except.error` models the call
raising.  The found/missing test is Python truthiness (`if not features`),
so an empty Tag Vector is treated as missing; with a truthy `self.model`
that was never successfully fitted, `predict_proba` raises
(`NotFittedError`), modelled as `.error ()`. -/
def serve_prediction (e : Engine) (post_id : PId) :
    Except Unit Decision :=
  match get_online_features e.store post_id with
  | none => .ok { post_id := post_id, score := none, action := "ERROR_NOT_FOUND" }
  | some features =>
    if features = [] then
      .ok { post_id := post_id, score := none, action := "ERROR_NOT_FOUND" }
    else
      match e.model with
      | some .unfitted => .error ()
      | some (.fitted p) =>
        let prob := p features
        .ok { post_id := post_id, score := some (round4 prob),
              action := decideAction prob }
      | none =>
        let prob : ℚ :=
          if features.lookup "Is_Harmful_Content" = some 1 then 0 else 1
        .ok { post_id := post_id, score := some (round4 prob),
              action := decideAction prob }

/-- A draw vector of zeros, inside the documented draw ranges. -/
def dZero : Draws :=
  { r0 := 0, u := 0, rPol := 0, rSpam := 0, rCopy := 0 }

/-- A sample post used to exercise the batch pipeline at a concrete
input. -/
def pWit : Post := { id := .str "a", text := "", img_abs_path := "a.png" }

/-- A sample Feature Row. -/
def wRow : FeatureRow :=
  { post_id := .str "w"
    post_text := ""
    keywords := []
    vlm := errorVlmOutput
    scores := [("Harmful_Content", 9/10)]
    tags := [("Is_Harmful_Content", 1)] }

/-- A first Feature Row for the duplicate-id scenario. -/
def wRow1 : FeatureRow := { wRow with tags := [("Is_Harmful_Content", 0)] }

/-- A second Feature Row with the same post id and different tags. -/
def wRow2 : FeatureRow :=
  { wRow with tags := [("Is_Harmful_Content", 1), ("Is_Spam", 0)] }

/-- A Feature Row whose dataframe had no `Is_`-prefixed column, so its
stored Tag Vector is the empty dict. -/
def emptyTagRow : FeatureRow :=
  { wRow with post_id := .str "e1", tags := [] }

/-- An engine whose online store holds one post with an empty Tag
Vector. -/
def emptyTagEngine : Engine :=
  { store := write_online emptyStore [emptyTagRow], model := none }

/-- An engine with an empty online store and no model. -/
def missEngine : Engine := { store := emptyStore, model := none }

/-- An engine with one stored post and a fitted model whose predicted
probability is exactly 0.2. -/
def c4Engine : Engine :=
  { store := storeInsert emptyStore "p4" [("Is_Harmful_Content", 0)]
    model := some (.fitted (fun _ => 1/5)) }

/-- The single offline row of the degenerate-training scenario. -/
def bugRow : FeatureRow :=
  { post_id := .str "p1"
    post_text := ""
    keywords := []
    vlm := errorVlmOutput
    scores := [("Harmful_Content", 9/10)]
    tags := [("Is_Harmful_Content", 1)] }

/-- The engine before training: `bugRow` is in the online store and no
model is set. -/
def bugEngine0 : Engine :=
  { store := write_online emptyStore [bugRow], model := none }

/-- The engine after `train_model` on the one-row offline log when `fit`
raises (single-class label vector), modelled by the fit oracle returning
`none`. -/
def bugEngine1 : Engine :=
  train_model (fun _ _ => none) (fun _ => 1/2) (some [bugRow]) bugEngine0

/-- Evaluation of the `Harmful_Content` entry of `classify_to_scores`. -/
theorem scoreOf_harmful_eval (keywords : List String) (d : Draws) :
    scoreOf "Harmful_Content" keywords d =
      min 1 ((if triggers.any (fun t => keywords.contains t)
                then d.r0 * (1/2) + 2/5 else d.r0 * (1/2)) + d.u) := rfl

/-- Evaluation of the `Political_Content` entry of
`classify_to_scores`. -/
theorem scoreOf_political_eval (keywords : List String) (d : Draws) :
    scoreOf "Political_Content" keywords d = d.rPol := rfl

/-- Evaluation of the `Spam` entry of `classify_to_scores`. -/
theorem scoreOf_spam_eval (keywords : List String) (d : Draws) :
    scoreOf "Spam" keywords d = d.rSpam * (3/10) := rfl

/-- Evaluation of the `Copyright_Infringement` entry of
`classify_to_scores`. -/
theorem scoreOf_copyright_eval (keywords : List String) (d : Draws) :
    scoreOf "Copyright_Infringement" keywords d = d.rCopy * (1/10) := rfl

/-- C2, counterexample: with the in-range draws `r0 = 0`, `u = -0.1`
(attainable: `random.uniform(-0.1, 0.1)` returns its lower endpoint when
`random.random()` returns 0) and no trigger keyword, `classify_to_scores`
produces a `Harmful_Content` score of `-0.1 < 0`, outside `[0,1]`: the
code clamps only above, at 1.0, never below at 0. -/
theorem c2_harmful_score_below_zero :
    Draws.Valid { r0 := 0, u := -(1/10), rPol := 0, rSpam := 0, rCopy := 0 } ∧
    scoreOf "Harmful_Content" []
      { r0 := 0, u := -(1/10), rPol := 0, rSpam := 0, rCopy := 0 } < 0 := by
  constructor
  · unfold Draws.Valid
    norm_num
  · rw [scoreOf_harmful_eval]
    norm_num [triggers, min_def]

/-- C2, amended: for every keyword list and every in-range outcome of the
random draws, the `Political_Content`, `Spam` and
`Copyright_Infringement` scores lie in `[0,1]`, and the `Harmful_Content`
score lies in `[-0.1, 1]`: it is clamped above at 1.0 but not clamped
below, so it can undershoot 0 by at most the 0.1 magnitude of the
uniform noise. -/
theorem c2_classify_scores_bounds (keywords : List String) (d : Draws)
    (hd : d.Valid) :
    (-(1/10) ≤ scoreOf "Harmful_Content" keywords d ∧
      scoreOf "Harmful_Content" keywords d ≤ 1) ∧
    (0 ≤ scoreOf "Political_Content" keywords d ∧
      scoreOf "Political_Content" keywords d ≤ 1) ∧
    (0 ≤ scoreOf "Spam" keywords d ∧
      scoreOf "Spam" keywords d ≤ 1) ∧
    (0 ≤ scoreOf "Copyright_Infringement" keywords d ∧
      scoreOf "Copyright_Infringement" keywords d ≤ 1) := by
  obtain ⟨h1, h2, h3, h4, h5, h6, h7, h8, h9, h10⟩ := hd
  rw [scoreOf_harmful_eval, scoreOf_political_eval, scoreOf_spam_eval,
    scoreOf_copyright_eval]
  refine ⟨⟨le_min_iff.mpr ⟨by norm_num, ?_⟩, min_le_left _ _⟩,
    ⟨h5, le_of_lt h6⟩, ⟨by linarith, by linarith⟩, ⟨by linarith, by linarith⟩⟩
  split
  · linarith
  · linarith

/-- C2, witness for the amended bounds at the concrete input `dZero`. -/
theorem c2_classify_scores_bounds_witness :
    (-(1/10) ≤ scoreOf "Harmful_Content" [] dZero ∧
      scoreOf "Harmful_Content" [] dZero ≤ 1) ∧
    (0 ≤ scoreOf "Political_Content" [] dZero ∧
      scoreOf "Political_Content" [] dZero ≤ 1) ∧
    (0 ≤ scoreOf "Spam" [] dZero ∧
      scoreOf "Spam" [] dZero ≤ 1) ∧
    (0 ≤ scoreOf "Copyright_Infringement" [] dZero ∧
      scoreOf "Copyright_Infringement" [] dZero ≤ 1) :=
  c2_classify_scores_bounds [] dZero (by unfold dZero Draws.Valid; norm_num)

/-- C8: with the random draws held fixed, a keyword list containing a
designated trigger token yields a `Harmful_Content` score at least that
of any keyword list containing no trigger token. -/
theorem c8_harmful_monotone_trigger (d : Draws) (kw1 kw2 : List String)
    (h1 : triggers.any (fun t => kw1.contains t) = true)
    (h2 : triggers.any (fun t => kw2.contains t) = false) :
    scoreOf "Harmful_Content" kw2 d ≤ scoreOf "Harmful_Content" kw1 d := by
  rw [scoreOf_harmful_eval, scoreOf_harmful_eval, h1, h2,
    if_pos rfl, if_neg Bool.false_ne_true]
  exact min_le_min le_rfl (by linarith)

/-- C8, witness: at the zero draw vector, the trigger list `["hate"]`
scores at least the trigger-free empty list. -/
theorem c8_harmful_monotone_trigger_witness :
    scoreOf "Harmful_Content" [] dZero ≤
      scoreOf "Harmful_Content" ["hate"] dZero :=
  c8_harmful_monotone_trigger dZero ["hate"] [] (by decide) (by decide)

/-- C5: for every scores dict and thresholds dict, each category `cat`
with score `s` contributes the tag entry `Is_cat = 1` precisely when
`s ≥` its configured threshold (default 0.5 when unconfigured), and
`apply_policy` is a pure function of exactly these two inputs: equal
arguments give equal Tag Vectors. -/
theorem c5_apply_policy_threshold (policy_thresholds : List (String × ℚ))
    (scores : Scores) (cat : String) (score : ℚ)
    (h : (cat, score) ∈ scores) :
    (("Is_" ++ cat,
        if score ≥ (policy_thresholds.lookup cat).getD (1/2) then (1 : Int)
        else 0) ∈ apply_policy policy_thresholds scores) ∧
    (∀ pt2 s2, pt2 = policy_thresholds → s2 = scores →
      apply_policy pt2 s2 = apply_policy policy_thresholds scores) := by
  constructor
  · have hm := List.mem_map_of_mem
      (fun cs : String × ℚ =>
        ("Is_" ++ cs.1,
          if cs.2 ≥ ((policy_thresholds.lookup cs.1).getD (1/2)) then (1 : Int)
          else 0)) h
    simpa [apply_policy] using hm
  · intro pt2 s2 hpt hs
    rw [hpt, hs]

/-- C5, witness: with threshold 0.8 on `Harmful_Content` and score 0.9,
the tag entry `Is_Harmful_Content = 1` is produced. -/
theorem c5_apply_policy_threshold_witness :
    ("Is_Harmful_Content", (1 : Int)) ∈
      apply_policy [("Harmful_Content", 4/5)] [("Harmful_Content", 9/10)] := by
  have h := (c5_apply_policy_threshold [("Harmful_Content", 4/5)]
    [("Harmful_Content", 9/10)] "Harmful_Content" (9/10)
    (by simp)).1
  norm_num [List.lookup] at h
  simpa using h

/-- C6: after `write_online` of a row, `get_online_features` of its post
id returns exactly the Tag Vector of that row; and when two rows with the same
(string-coerced) post id are written in one batch, the Tag Vector of the later row
Vector replaces the earlier one outright — last write wins, no merge. -/
theorem c6_write_then_lookup (s : OnlineStore) (row r1 r2 : FeatureRow)
    (h : pyStr r1.post_id = pyStr r2.post_id) :
    get_online_features (write_online s [row]) row.post_id =
      some row.tags ∧
    get_online_features (write_online s [r1, r2]) r1.post_id =
      some r2.tags := by
  constructor
  · simp [get_online_features, write_online, storeInsert]
  · simp [get_online_features, write_online, storeInsert, h]

/-- C6, witness at concrete rows: `wRow1` and `wRow2` share post id
`"w"`. -/
theorem c6_write_then_lookup_witness :
    get_online_features (write_online emptyStore [wRow]) wRow.post_id =
      some wRow.tags ∧
    get_online_features (write_online emptyStore [wRow1, wRow2])
      wRow1.post_id = some wRow2.tags :=
  c6_write_then_lookup emptyStore wRow wRow1 wRow2 rfl

/-- C9: both the write path and the read path key the online index by
`str(post_id)`, so a lookup with the original id and with its string form
always agree, after any sequence of writes; in particular the integer
and string spellings of the same id agree. -/
theorem c9_str_coercion (s : OnlineStore) (rows : List FeatureRow)
    (pid : PId) :
    get_online_features (write_online s rows) (.str (pyStr pid)) =
      get_online_features (write_online s rows) pid ∧
    ∀ n : Int, get_online_features (write_online s rows) (.int n) =
      get_online_features (write_online s rows) (.str (toString n)) :=
  ⟨rfl, fun _ => rfl⟩

/-- C7: a post id absent from the online index gives the `none`
(NOT_FOUND) sentinel from `get_online_features`, and `serve_prediction`
returns the ERROR_NOT_FOUND decision with no score, without raising. -/
theorem c7_lookup_miss (e : Engine) (pid : PId)
    (h : e.store (pyStr pid) = none) :
    get_online_features e.store pid = none ∧
    serve_prediction e pid =
      .ok { post_id := pid, score := none, action := "ERROR_NOT_FOUND" } := by
  refine ⟨h, ?_⟩
  simp [serve_prediction, get_online_features, h]

/-- C7, witness: serving `"nonexistent"` against the empty store. -/
theorem c7_lookup_miss_witness :
    get_online_features missEngine.store (.str "nonexistent") = none ∧
    serve_prediction missEngine (.str "nonexistent") =
      .ok { post_id := .str "nonexistent", score := none,
            action := "ERROR_NOT_FOUND" } :=
  c7_lookup_miss missEngine (.str "nonexistent") rfl

/-- C10: the found/missing test in `serve_prediction` is Python
truthiness (`if not features`), so a key that IS present in the online
store but maps to an empty Tag Vector is served as ERROR_NOT_FOUND. -/
theorem c10_empty_tags_not_found (e : Engine) (pid : PId)
    (h : e.store (pyStr pid) = some []) :
    serve_prediction e pid =
      .ok { post_id := pid, score := none, action := "ERROR_NOT_FOUND" } := by
  simp [serve_prediction, get_online_features, h]

/-- C10, witness: a row whose dataframe had no `Is_` columns was written
online, its key is present with an empty Tag Vector, and serving it
returns ERROR_NOT_FOUND. -/
theorem c10_empty_tags_not_found_witness :
    serve_prediction emptyTagEngine (.str "e1") =
      .ok { post_id := .str "e1", score := none,
            action := "ERROR_NOT_FOUND" } :=
  c10_empty_tags_not_found emptyTagEngine (.str "e1") rfl

/-- C4: with a fitted model predicting probability `prob` for a found,
non-empty Tag Vector, `serve_prediction` returns the score `prob` rounded
to 4 decimals and the action given by the fixed thresholds:
`prob < 0.2 → BLOCK`, `0.2 ≤ prob < 0.5 → DEMOTE`, `0.5 ≤ prob →
DISPLAY`; in particular exactly 0.2 gives DEMOTE and exactly 0.5 gives
DISPLAY. -/
theorem c4_threshold_mapping (e : Engine) (pid : PId)
    (p : TagVector → ℚ) (features : TagVector) (prob : ℚ)
    (hm : e.model = some (.fitted p))
    (hf : get_online_features e.store pid = some features)
    (hne : features ≠ [])
    (hp : p features = prob) :
    serve_prediction e pid =
      .ok { post_id := pid, score := some (round4 prob),
            action := decideAction prob } ∧
    (prob < 1/5 → decideAction prob = "BLOCK") ∧
    (1/5 ≤ prob → prob < 1/2 → decideAction prob = "DEMOTE") ∧
    (1/2 ≤ prob → decideAction prob = "DISPLAY") ∧
    decideAction (1/5) = "DEMOTE" ∧
    decideAction (1/2) = "DISPLAY" := by
  refine ⟨?_, ?_, ?_, ?_, ?_, ?_⟩
  · simp [serve_prediction, hf, hne, hm, hp]
  · intro h
    unfold decideAction
    rw [if_pos h]
  · intro h1 h2
    unfold decideAction
    rw [if_neg (by linarith), if_pos h2]
  · intro h
    unfold decideAction
    rw [if_neg (by linarith), if_neg (by linarith)]
  · unfold decideAction
    norm_num
  · unfold decideAction
    norm_num

/-- C4, witness: the boundary probability 0.2 served through a fitted
model on a concrete engine. -/
theorem c4_threshold_mapping_witness :
    serve_prediction c4Engine (.str "p4") =
      .ok { post_id := .str "p4", score := some (round4 (1/5)),
            action := decideAction (1/5) } :=
  (c4_threshold_mapping c4Engine (.str "p4") (fun _ => 1/5)
    [("Is_Harmful_Content", 0)] (1/5) rfl rfl (by simp) rfl).1

/-- With a VLM oracle that always raises, each processed row carries the
ERROR-sentinel analysis. -/
theorem process_row_vlm_error (policy_thresholds : List (String × ℚ))
    (textOracle : String → Except Unit String) (d : Draws) (post : Post) :
    (process_row policy_thresholds (fun _ => .error ()) textOracle d
        post).vlm = errorVlmOutput := rfl

/-- C3: when every VLM call raises, `process_batch` still completes and
yields exactly one Feature Row per input post, and the analysis of each row is
the ERROR sentinel: `visual_summary` and `ocr_text` are `"ERROR"`, every
risk flag is `false` and every reason is `"ERROR"` (the content of
`errorVlmOutput`). -/
theorem c3_vlm_failure_batch (policy_thresholds : List (String × ℚ))
    (textOracle : String → Except Unit String) (draws : Nat → Draws)
    (posts : List Post) :
    (process_batch policy_thresholds (fun _ => .error ()) textOracle draws
        posts).length = posts.length ∧
    ∀ r ∈ process_batch policy_thresholds (fun _ => .error ()) textOracle
        draws posts,
      r.vlm.visual_summary = "ERROR" ∧ r.vlm.ocr_text = "ERROR" ∧
      r.vlm = errorVlmOutput := by
  induction posts generalizing draws with
  | nil =>
    refine ⟨rfl, ?_⟩
    intro r hr
    cases hr
  | cons p ps ih =>
    obtain ⟨ihl, ihm⟩ := ih (fun i => draws (i + 1))
    constructor
    · simp [process_batch, ihl]
    · intro r hr
      rcases List.mem_cons.mp hr with h | h
      · subst h
        exact ⟨rfl, rfl, rfl⟩
      · exact ihm r h

/-- C3, witness: a singleton batch under total VLM failure. -/
theorem c3_vlm_failure_batch_witness :
    (process_batch [] (fun _ => .error ()) (fun _ => .error ())
        (fun _ => dZero) [pWit]).length = 1 ∧
    (process_row [] (fun _ => .error ()) (fun _ => .error ()) dZero
        pWit).vlm = errorVlmOutput := by
  have hm : process_row [] (fun _ => .error ()) (fun _ => .error ()) dZero
      pWit ∈ process_batch [] (fun _ => .error ()) (fun _ => .error ())
      (fun _ => dZero) [pWit] := by
    simp [process_batch]
  exact ⟨(c3_vlm_failure_batch [] (fun _ => .error ())
      (fun _ => dZero) [pWit]).1,
    ((c3_vlm_failure_batch [] (fun _ => .error ())
      (fun _ => dZero) [pWit]).2 _ hm).2.2⟩

/-- C1, code bug: after `train_model` on a degenerate (single-class)
offline log whose `fit` raises, the engine is NOT left in the no-model
state — `self.model` is assigned the fresh estimator before `fit` is
attempted — and `serve_prediction` on a post id present in the online
index then raises (`predict_proba` on a never-fitted model, a
`NotFittedError`) instead of answering through the rule-based
`Is_Harmful_Content` fallback, which is unreachable once training has
been attempted. -/
theorem c1_train_failure_serve_raises :
    bugEngine1.model = some .unfitted ∧
    get_online_features bugEngine1.store (.str "p1") = some bugRow.tags ∧
    serve_prediction bugEngine1 (.str "p1") = .error () := by
  refine ⟨rfl, rfl, rfl⟩

end ContentModeration
